import Mathlib

/-
  Shallow embedding of pg_simula.c, a fault-injection extension for
  PostgreSQL.  Machine state (the module's globals plus the persistent
  simula_events relation) is passed explicitly; host facts that the code
  queries (IsTransactionState, extension presence, SPI outcomes, previous
  hooks) form an environment record.  ereport(ERROR/FATAL/PANIC) paths are
  modelled with Except / abort outcomes.
-/

namespace PgSimula

/-- Models pg_strcasecmp(a, b) == 0: ASCII case-insensitive equality,
folding each character with Char.toLower as the C code folds with
tolower. -/
def pg_strcasecmp_eq (a b : String) : Bool :=
  a.data.map Char.toLower == b.data.map Char.toLower

/-- MAX_LENGTH from pg_simula.c: capacity of the operation/action buffers. -/
def MAX_LENGTH : Nat := 100

/-- Models strncpy into a MAX_LENGTH buffer: at most MAX_LENGTH code units
of the source are stored (the byte-level non-termination of a full buffer
is below the level of this embedding). -/
def strncpy_trunc (s : String) : String :=
  ⟨s.data.take MAX_LENGTH⟩

/-- The four built-in simulation behaviors of ActionTable. -/
inductive ActKind where
  | error
  | panic
  | wait
  | fatal
deriving DecidableEq, Repr

/-- ActionTable from pg_simula.c: action name paired with its behavior. -/
def ActionTable : List (String × ActKind) :=
  [("error", ActKind.error),
   ("panic", ActKind.panic),
   ("wait", ActKind.wait),
   ("fatal", ActKind.fatal)]

/-- The inner loop of doEventIfAny and the validation loop of
add_simula_event: first ActionTable entry whose name matches
case-insensitively. -/
def lookupAction (name : String) : Option ActKind :=
  (ActionTable.find? fun a => pg_strcasecmp_eq a.1 name).map (fun a => a.2)

/-- SimulaEvent struct: one cached rule (sec already parsed by atoi). -/
structure SimulaEvent where
  operation : String
  action : String
  sec : Int
deriving DecidableEq, Repr

/-- One row of the persistent simula_events relation
(operation text PRIMARY KEY, action text, sec integer). -/
structure EventRow where
  operation : String
  action : String
  sec : Int
deriving DecidableEq, Repr

/-- The module's globals plus the persistent relation contents. -/
structure SimulaState where
  simulation_enabled : Bool
  in_simula_event_progress : Bool
  registered_to_callback : Bool
  SimulaEvents : List SimulaEvent
  store : List EventRow
deriving DecidableEq, Repr

/-- Host facts consulted by the code: IsTransactionState(), whether the
extension is created in the database (isPgSimulaLoaded), whether the SPI
read/write fails, and whether previous hooks are installed. -/
structure Host where
  isTransactionState : Bool
  extensionInstalled : Bool
  readFails : Bool
  writeFails : Bool
  prev_planner : Bool
  prev_ProcessUtility : Bool
deriving DecidableEq, Repr

/-- isPgSimulaLoaded: OidIsValid(get_extension_oid("pg_simula", true)). -/
def isPgSimulaLoaded (host : Host) : Bool :=
  host.extensionInstalled

/-- needReloadAndEvent from pg_simula.c lines 146-157. -/
def needReloadAndEvent (host : Host) (st : SimulaState) (commandTag : String) : Bool :=
  st.simulation_enabled &&
  !st.in_simula_event_progress &&
  host.isTransactionState &&
  !(pg_strcasecmp_eq commandTag "START TRANSACTION") &&
  !(pg_strcasecmp_eq commandTag "BEGIN")

/-- Row-to-rule conversion inside reloadEventTableData: strncpy of the two
text columns into MAX_LENGTH buffers, atoi of sec. -/
def convertRow (r : EventRow) : SimulaEvent :=
  ⟨strncpy_trunc r.operation, strncpy_trunc r.action, r.sec⟩

/-- reloadEventTableData, lines 159-212: free the old cache, return if the
extension is absent, else SELECT the relation; elog(ERROR) if the read
fails, otherwise rebuild the cache from the rows in read order. -/
def reloadEventTableData (host : Host) (st : SimulaState) :
    Except SimulaState SimulaState :=
  let st1 := { st with SimulaEvents := [] }
  if !isPgSimulaLoaded host then
    Except.ok st1
  else if host.readFails then
    Except.error st1
  else
    Except.ok { st1 with SimulaEvents := st1.store.map convertRow }

/-- doEventIfAny, lines 405-431: scan the cache; on an operation match,
walk ActionTable; if the action is found, invoke it and return; an
unmatched action falls through to the next cached rule.  The result is
the invocation performed: behavior kind and the sec argument passed. -/
def doEventIfAny (cache : List SimulaEvent) (commandTag : String) :
    Option (ActKind × Int) :=
  match cache with
  | [] => none
  | e :: rest =>
    if pg_strcasecmp_eq e.operation commandTag then
      match lookupAction e.action with
      | some k => some (k, e.sec)
      | none => doEventIfAny rest commandTag
    else
      doEventIfAny rest commandTag

/-- Transaction lifecycle events delivered to the xact callback (the
callback ignores which one occurred, as the C function ignores its
XactEvent argument). -/
inductive XactEvent where
  | commit
  | abort
deriving DecidableEq, Repr

/-- pg_simula_xact_callback, lines 293-297: unconditionally clear the
reentrancy flag at transaction end. -/
def pg_simula_xact_callback (event : XactEvent) (st : SimulaState) : SimulaState :=
  { st with in_simula_event_progress := false }

/-- The reasons an intercepted call can abort instead of forwarding:
elog(ERROR) inside reloadEventTableData, or an invoked aborting action. -/
inductive AbortReason where
  | storageError
  | simError
  | simPanic
  | simFatal
deriving DecidableEq, Repr

/-- error_func: ereport(ERROR, ...) — recoverable abort of the operation. -/
def error_func (sec : Int) : AbortReason :=
  AbortReason.simError

/-- panic_func: ereport(PANIC, ...) — process termination. -/
def panic_func (sec : Int) : AbortReason :=
  AbortReason.simPanic

/-- fatal_func: ereport(FATAL, ...) — session termination. -/
def fatal_func (sec : Int) : AbortReason :=
  AbortReason.simFatal

/-- Models the C int type: wrap an integer to signed 32-bit two's
complement (what `sec * 1000 * 1000` does on overflow in practice). -/
def toInt32 (n : Int) : Int :=
  (n + 2 ^ 31) % 2 ^ 32 - 2 ^ 31

/-- pg_usleep(microsec): sleeps only when the argument is positive.  The
model returns the number of microseconds actually requested to sleep. -/
def pg_usleep (microsec : Int) : Int :=
  if 0 < microsec then microsec else 0

/-- wait_func, lines 445-449: pg_usleep(sec * 1000 * 1000), the product
computed in 32-bit int arithmetic.  Returns the microseconds slept. -/
def wait_func (sec : Int) : Int :=
  pg_usleep (toInt32 (sec * 1000 * 1000))

/-- Registering the xact callback on first hook invocation, lines
309-314 / 345-350: its state effect is setting registered_to_callback. -/
def registerCallbackStep (st : SimulaState) : SimulaState :=
  if st.registered_to_callback then st
  else { st with registered_to_callback := true }

/-- Observable outcome of the guarded block shared by the two hooks. -/
structure InterceptResult where
  abort : Option AbortReason
  fired : Option (ActKind × Int)
  refreshed : Bool
  dispatched : Bool
  st : SimulaState
deriving DecidableEq, Repr

/-- The body shared verbatim by pg_simula_planner and
pg_simula_ProcessUtility: register the callback if needed; if
needReloadAndEvent holds, set the flag, reload (elog(ERROR) aborts with
the flag still set), dispatch (an aborting action leaves the flag set),
then clear the flag. -/
def interceptStep (host : Host) (st : SimulaState) (commandTag : String) :
    InterceptResult :=
  let st0 := registerCallbackStep st
  if needReloadAndEvent host st0 commandTag then
    let st1 := { st0 with in_simula_event_progress := true }
    match reloadEventTableData host st1 with
    | Except.error stE => ⟨some AbortReason.storageError, none, true, false, stE⟩
    | Except.ok st2 =>
      match doEventIfAny st2.SimulaEvents commandTag with
      | some (ActKind.error, p) =>
        ⟨some (error_func p), some (ActKind.error, p), true, true, st2⟩
      | some (ActKind.panic, p) =>
        ⟨some (panic_func p), some (ActKind.panic, p), true, true, st2⟩
      | some (ActKind.fatal, p) =>
        ⟨some (fatal_func p), some (ActKind.fatal, p), true, true, st2⟩
      | some (ActKind.wait, p) =>
        ⟨none, some (ActKind.wait, p), true, true,
         { st2 with in_simula_event_progress := false }⟩
      | none =>
        ⟨none, none, true, true,
         { st2 with in_simula_event_progress := false }⟩
  else
    ⟨none, none, false, false, st0⟩

/-- Where an intercepted call is forwarded after the guarded block. -/
inductive ForwardTarget where
  | prevHook
  | standardHandler
deriving DecidableEq, Repr

/-- Full outcome of one hook invocation: the guarded block's outcome plus
where control was forwarded (none when an abort prevented forwarding). -/
structure HookRun where
  abort : Option AbortReason
  fired : Option (ActKind × Int)
  refreshed : Bool
  dispatched : Bool
  forwardedTo : Option ForwardTarget
  st : SimulaState
deriving DecidableEq, Repr

/-- The forwarding tail shared verbatim by both hook functions: after the
guarded block, an aborting ereport never reaches the forwarding call;
otherwise control goes to the previous hook when installed, else to the
host's standard handler. -/
def mkHookRun (r : InterceptResult) (prevInstalled : Bool) : HookRun :=
  ⟨r.abort, r.fired, r.refreshed, r.dispatched,
   if r.abort.isSome then none
   else some (if prevInstalled then ForwardTarget.prevHook
              else ForwardTarget.standardHandler),
   r.st⟩

/-- pg_simula_planner, lines 302-329: guarded block, then forward to
prev_planner when installed, else standard_planner. -/
def pg_simula_planner (host : Host) (st : SimulaState) (commandTag : String) :
    HookRun :=
  mkHookRun (interceptStep host st commandTag) host.prev_planner

/-- pg_simula_ProcessUtility, lines 331-368: same guarded block, then
forward to prev_ProcessUtility when installed, else
standard_ProcessUtility. -/
def pg_simula_ProcessUtility (host : Host) (st : SimulaState) (commandTag : String) :
    HookRun :=
  mkHookRun (interceptStep host st commandTag) host.prev_ProcessUtility

/-- The INSERT ... ON CONFLICT ON CONSTRAINT simula_events_pkey DO UPDATE
issued by add_simula_event: replace the row whose primary key equals the
operation, else append a new row. -/
def upsertRow (rows : List EventRow) (ope act : String) (sec : Int) :
    List EventRow :=
  match rows with
  | [] => [⟨ope, act, sec⟩]
  | r :: rest =>
    if r.operation = ope then ⟨ope, act, sec⟩ :: rest
    else r :: upsertRow rest ope act sec

/-- add_simula_event, lines 214-259: set the reentrancy flag, validate the
action against ActionTable (ereport(ERROR) exits with the flag still set),
issue the upsert (an SPI failure also exits with the flag set), clear the
flag and return true. -/
def add_simula_event (host : Host) (st : SimulaState)
    (ope act : String) (sec : Int) : Except SimulaState (SimulaState × Bool) :=
  let st1 := { st with in_simula_event_progress := true }
  if !(ActionTable.any fun a => pg_strcasecmp_eq a.1 act) then
    Except.error st1
  else if host.writeFails then
    Except.error st1
  else
    Except.ok ({ st1 with
                   store := upsertRow st1.store ope act sec,
                   in_simula_event_progress := false }, true)

/-- clear_all_events, lines 262-284: set the reentrancy flag, TRUNCATE the
relation (an SPI failure exits with the flag set), clear the flag and
return true. -/
def clear_all_events (host : Host) (st : SimulaState) :
    Except SimulaState (SimulaState × Bool) :=
  let st1 := { st with in_simula_event_progress := true }
  if host.writeFails then
    Except.error st1
  else
    Except.ok ({ st1 with store := [], in_simula_event_progress := false }, true)

end PgSimula

namespace PgSimula

example : pg_strcasecmp_eq "BEGIN" "begin" = true := by decide

example : lookupAction "ERROR" = some ActKind.error := by decide

example : lookupAction "bogus" = none := by decide

example :
    doEventIfAny [⟨"SELECT", "wait", 3⟩] "select" = some (ActKind.wait, 3) := by
  decide

/-- Registering the callback only changes the registered flag. -/
theorem registerCallbackStep_eq (st : SimulaState) :
    registerCallbackStep st = { st with registered_to_callback := true } := by
  unfold registerCallbackStep
  split
  · cases st
    simp_all
  · rfl

/-- The guard predicate does not read the registered flag. -/
theorem needReloadAndEvent_registerCallbackStep (host : Host) (st : SimulaState)
    (tag : String) :
    needReloadAndEvent host (registerCallbackStep st) tag =
      needReloadAndEvent host st tag := by
  rw [registerCallbackStep_eq]
  rfl

/-- When the guard predicate fails, the guarded block does nothing beyond
registering the callback. -/
theorem interceptStep_guard_false (host : Host) (st : SimulaState) (tag : String)
    (h : needReloadAndEvent host st tag = false) :
    interceptStep host st tag = ⟨none, none, false, false, registerCallbackStep st⟩ := by
  simp [interceptStep, needReloadAndEvent_registerCallbackStep, h]

/-- Planner hook when the guard predicate fails: forward only. -/
theorem pg_simula_planner_guard_false (host : Host) (st : SimulaState) (tag : String)
    (h : needReloadAndEvent host st tag = false) :
    pg_simula_planner host st tag =
      ⟨none, none, false, false,
       some (if host.prev_planner then ForwardTarget.prevHook
             else ForwardTarget.standardHandler),
       registerCallbackStep st⟩ := by
  simp [pg_simula_planner, mkHookRun, interceptStep_guard_false host st tag h]

/-- Utility hook when the guard predicate fails: forward only. -/
theorem pg_simula_ProcessUtility_guard_false (host : Host) (st : SimulaState)
    (tag : String) (h : needReloadAndEvent host st tag = false) :
    pg_simula_ProcessUtility host st tag =
      ⟨none, none, false, false,
       some (if host.prev_ProcessUtility then ForwardTarget.prevHook
             else ForwardTarget.standardHandler),
       registerCallbackStep st⟩ := by
  simp [pg_simula_ProcessUtility, mkHookRun, interceptStep_guard_false host st tag h]

/-- Claim C1: needReloadAndEvent returns true for a tag iff fault
injection is enabled, the reentrancy guard is clear, a transaction is
active, and the tag is neither BEGIN nor START TRANSACTION
case-insensitively; in particular, when injection is disabled or the tag
is a transaction-boundary command, neither hook refreshes the cache,
invokes the dispatcher, or fires an action. -/
theorem C1_needReloadAndEvent_characterization (host : Host) (st : SimulaState)
    (tag : String) :
    (needReloadAndEvent host st tag = true ↔
      (st.simulation_enabled = true ∧ st.in_simula_event_progress = false ∧
       host.isTransactionState = true ∧
       pg_strcasecmp_eq tag "BEGIN" = false ∧
       pg_strcasecmp_eq tag "START TRANSACTION" = false)) ∧
    (st.simulation_enabled = false ∨ pg_strcasecmp_eq tag "BEGIN" = true ∨
       pg_strcasecmp_eq tag "START TRANSACTION" = true →
     (pg_simula_planner host st tag).refreshed = false ∧
     (pg_simula_planner host st tag).dispatched = false ∧
     (pg_simula_planner host st tag).fired = none ∧
     (pg_simula_ProcessUtility host st tag).refreshed = false ∧
     (pg_simula_ProcessUtility host st tag).dispatched = false ∧
     (pg_simula_ProcessUtility host st tag).fired = none) := by
  constructor
  · simp only [needReloadAndEvent, Bool.and_eq_true, Bool.not_eq_true']
    tauto
  · intro h
    have hfalse : needReloadAndEvent host st tag = false := by
      rcases h with h | h | h <;> simp [needReloadAndEvent, h]
    rw [pg_simula_planner_guard_false host st tag hfalse,
        pg_simula_ProcessUtility_guard_false host st tag hfalse]
    exact ⟨rfl, rfl, rfl, rfl, rfl, rfl⟩

/-- Witness for C1 at a concrete boundary tag. -/
theorem C1_witness :
    ((SimulaState.mk true false false [] []).simulation_enabled = false ∨
       pg_strcasecmp_eq "begin" "BEGIN" = true ∨
       pg_strcasecmp_eq "begin" "START TRANSACTION" = true) ∧
    ((pg_simula_planner ⟨true, true, false, false, true, true⟩
        ⟨true, false, false, [], []⟩ "begin").refreshed = false ∧
     (pg_simula_planner ⟨true, true, false, false, true, true⟩
        ⟨true, false, false, [], []⟩ "begin").dispatched = false ∧
     (pg_simula_planner ⟨true, true, false, false, true, true⟩
        ⟨true, false, false, [], []⟩ "begin").fired = none ∧
     (pg_simula_ProcessUtility ⟨true, true, false, false, true, true⟩
        ⟨true, false, false, [], []⟩ "begin").refreshed = false ∧
     (pg_simula_ProcessUtility ⟨true, true, false, false, true, true⟩
        ⟨true, false, false, [], []⟩ "begin").dispatched = false ∧
     (pg_simula_ProcessUtility ⟨true, true, false, false, true, true⟩
        ⟨true, false, false, [], []⟩ "begin").fired = none) :=
  ⟨by decide,
   (C1_needReloadAndEvent_characterization ⟨true, true, false, false, true, true⟩
      ⟨true, false, false, [], []⟩ "begin").2 (by decide)⟩

/-- Claim C2: while the reentrancy guard is set, neither interception
point refreshes the cache, invokes the dispatcher, fires an action, or
aborts; the entire state except the callback-registration flag is left
untouched. -/
theorem C2_guard_blocks_interception (host : Host) (st : SimulaState) (tag : String)
    (h : st.in_simula_event_progress = true) :
    pg_simula_planner host st tag =
      ⟨none, none, false, false,
       some (if host.prev_planner then ForwardTarget.prevHook
             else ForwardTarget.standardHandler),
       registerCallbackStep st⟩ ∧
    pg_simula_ProcessUtility host st tag =
      ⟨none, none, false, false,
       some (if host.prev_ProcessUtility then ForwardTarget.prevHook
             else ForwardTarget.standardHandler),
       registerCallbackStep st⟩ := by
  have hfalse : needReloadAndEvent host st tag = false := by
    simp [needReloadAndEvent, h]
  exact ⟨pg_simula_planner_guard_false host st tag hfalse,
         pg_simula_ProcessUtility_guard_false host st tag hfalse⟩

/-- Witness for C2: guard set, a rule matching the tag is present in both
cache and storage, yet nothing fires and the cache is untouched. -/
theorem C2_witness :
    (SimulaState.mk true true true [⟨"SELECT", "error", 0⟩]
        [⟨"SELECT", "error", 0⟩]).in_simula_event_progress = true ∧
    (pg_simula_planner ⟨true, true, false, false, true, true⟩
        ⟨true, true, true, [⟨"SELECT", "error", 0⟩], [⟨"SELECT", "error", 0⟩]⟩
        "SELECT" =
      ⟨none, none, false, false,
       some (if (Host.mk true true false false true true).prev_planner
             then ForwardTarget.prevHook else ForwardTarget.standardHandler),
       registerCallbackStep
         ⟨true, true, true, [⟨"SELECT", "error", 0⟩], [⟨"SELECT", "error", 0⟩]⟩⟩ ∧
     pg_simula_ProcessUtility ⟨true, true, false, false, true, true⟩
        ⟨true, true, true, [⟨"SELECT", "error", 0⟩], [⟨"SELECT", "error", 0⟩]⟩
        "SELECT" =
      ⟨none, none, false, false,
       some (if (Host.mk true true false false true true).prev_ProcessUtility
             then ForwardTarget.prevHook else ForwardTarget.standardHandler),
       registerCallbackStep
         ⟨true, true, true, [⟨"SELECT", "error", 0⟩], [⟨"SELECT", "error", 0⟩]⟩⟩) :=
  ⟨by decide,
   C2_guard_blocks_interception ⟨true, true, false, false, true, true⟩
     ⟨true, true, true, [⟨"SELECT", "error", 0⟩], [⟨"SELECT", "error", 0⟩]⟩
     "SELECT" (by decide)⟩

/-- Claim C3 counterexample: in a cache whose first rule matching the tag
names an unknown action, doEventIfAny does not fire that first matching
rule (it has no registered behavior) but fires a later matching rule with
the later rule's parameter — so dispatch is not always the behavior of the
first rule whose operation matches. -/
theorem C3_counterexample :
    List.find? (fun e => pg_strcasecmp_eq e.operation "DROP TABLE")
        ([⟨"DROP TABLE", "bogus", 7⟩, ⟨"drop table", "error", 9⟩] :
          List SimulaEvent) =
      some ⟨"DROP TABLE", "bogus", 7⟩ ∧
    lookupAction "bogus" = none ∧
    doEventIfAny [⟨"DROP TABLE", "bogus", 7⟩, ⟨"drop table", "error", 9⟩]
        "DROP TABLE" =
      some (ActKind.error, 9) := by
  decide

/-- Claim C3 (amended): for every cache state and tag, doEventIfAny fires
at most one action — the registered behavior of the first rule whose
operation matches the tag case-insensitively AND whose action names a
registry entry, invoked with that rule's parameter — and is a no-op when
no rule's operation matches the tag. -/
theorem C3_dispatch_first_recognized (cache : List SimulaEvent) (tag : String) :
    (doEventIfAny cache tag =
      (cache.find? fun e =>
          pg_strcasecmp_eq e.operation tag && (lookupAction e.action).isSome).bind
        (fun e => (lookupAction e.action).map fun k => (k, e.sec))) ∧
    ((∀ e ∈ cache, pg_strcasecmp_eq e.operation tag = false) →
      doEventIfAny cache tag = none) := by
  constructor
  · induction cache with
    | nil => rfl
    | cons e rest ih =>
      cases hop : pg_strcasecmp_eq e.operation tag with
      | false => simp [doEventIfAny, List.find?_cons, hop, ih]
      | true =>
        cases hact : lookupAction e.action with
        | none => simp [doEventIfAny, List.find?_cons, hop, hact, ih]
        | some k => simp [doEventIfAny, List.find?_cons, hop, hact]
  · intro hnone
    induction cache with
    | nil => rfl
    | cons e rest ih =>
      have he := hnone e (List.mem_cons_self e rest)
      simp only [doEventIfAny, he, if_false]
      exact ih fun x hx => hnone x (List.mem_cons_of_mem e hx)

/-- Witness for C3 (amended) at a cache with no matching rule. -/
theorem C3_witness :
    (∀ e ∈ [(⟨"UPDATE", "error", 1⟩ : SimulaEvent)],
       pg_strcasecmp_eq e.operation "SELECT" = false) ∧
    doEventIfAny [⟨"UPDATE", "error", 1⟩] "SELECT" = none :=
  ⟨by decide,
   (C3_dispatch_first_recognized [⟨"UPDATE", "error", 1⟩] "SELECT").2 (by decide)⟩

/-- Claim C10: a cache rule whose operation matches the tag but whose
action is absent from ActionTable is skipped silently: dispatch on the
remaining rules proceeds exactly as if the rule were not there, so a
later matching rule with a recognized action can fire. -/
theorem C10_unknown_action_skipped (e : SimulaEvent) (rest : List SimulaEvent)
    (tag : String) (hop : pg_strcasecmp_eq e.operation tag = true)
    (hact : lookupAction e.action = none) :
    doEventIfAny (e :: rest) tag = doEventIfAny rest tag := by
  simp [doEventIfAny, hop, hact]

/-- Witness for C10: the unknown action "delay" is skipped and the later
matching rule fires with its own parameter. -/
theorem C10_witness :
    pg_strcasecmp_eq
        (SimulaEvent.mk "SELECT" "delay" 5).operation "select" = true ∧
    lookupAction (SimulaEvent.mk "SELECT" "delay" 5).action = none ∧
    doEventIfAny [⟨"SELECT", "delay", 5⟩, ⟨"Select", "wait", 2⟩] "select" =
      doEventIfAny [⟨"Select", "wait", 2⟩] "select" ∧
    doEventIfAny [⟨"Select", "wait", 2⟩] "select" = some (ActKind.wait, 2) :=
  ⟨by decide, by decide,
   C10_unknown_action_skipped ⟨"SELECT", "delay", 5⟩ [⟨"Select", "wait", 2⟩]
     "select" (by decide) (by decide),
   by decide⟩

/-- Claim C5: a successful refresh fully replaces the cache with exactly
one rule per stored row, in read order, the previous contents playing no
part; the operation and action strings are truncated to MAX_LENGTH = 100
code units, values within the bound stored unchanged — never rejected. -/
theorem C5_reload_full_replace (host : Host) (st : SimulaState)
    (hinst : host.extensionInstalled = true) (hok : host.readFails = false) :
    reloadEventTableData host st =
      Except.ok { st with SimulaEvents := st.store.map convertRow } ∧
    (∀ r : EventRow, convertRow r =
      ⟨strncpy_trunc r.operation, strncpy_trunc r.action, r.sec⟩) ∧
    (∀ s : String, (strncpy_trunc s).length ≤ MAX_LENGTH) ∧
    (∀ s : String, s.length ≤ MAX_LENGTH → strncpy_trunc s = s) := by
  refine ⟨?_, fun r => rfl, ?_, ?_⟩
  · simp [reloadEventTableData, isPgSimulaLoaded, hinst, hok]
  · intro s
    show (s.data.take MAX_LENGTH).length ≤ MAX_LENGTH
    rw [List.length_take]
    exact min_le_left _ _
  · intro s hs
    cases s with
    | mk data =>
      show String.mk (data.take MAX_LENGTH) = String.mk data
      rw [List.take_of_length_le hs]

/-- Witness for C5: extension installed, read succeeds, old cache
discarded, new cache built from the stored rows. -/
theorem C5_witness :
    (Host.mk true true false false true true).extensionInstalled = true ∧
    (Host.mk true true false false true true).readFails = false ∧
    reloadEventTableData ⟨true, true, false, false, true, true⟩
        ⟨true, false, true, [⟨"old", "error", 1⟩], [⟨"SELECT", "wait", 2⟩]⟩ =
      Except.ok ⟨true, false, true, [⟨"SELECT", "wait", 2⟩], [⟨"SELECT", "wait", 2⟩]⟩ :=
  ⟨rfl, rfl, by
    have h := (C5_reload_full_replace ⟨true, true, false, false, true, true⟩
      ⟨true, false, true, [⟨"old", "error", 1⟩], [⟨"SELECT", "wait", 2⟩]⟩
      rfl rfl).1
    rw [h]
    rfl⟩

/-- Claim C6: refresh distinguishes absence from failure — with the
extension absent it returns normally with an empty cache no matter
whether the storage read would fail (no query is issued), while with the
extension present a failing read raises an error, leaving no stale or
partial rule data behind. -/
theorem C6_absence_vs_failure (host : Host) (st : SimulaState) :
    (host.extensionInstalled = false →
      reloadEventTableData host st = Except.ok { st with SimulaEvents := [] }) ∧
    (host.extensionInstalled = true → host.readFails = true →
      reloadEventTableData host st = Except.error { st with SimulaEvents := [] }) := by
  constructor
  · intro h
    simp [reloadEventTableData, isPgSimulaLoaded, h]
  · intro h hfail
    simp [reloadEventTableData, isPgSimulaLoaded, h, hfail]

/-- Witness for C6: both the absent-extension and the failing-read cases
at concrete states carrying rules. -/
theorem C6_witness :
    (Host.mk true false true false true true).extensionInstalled = false ∧
    reloadEventTableData ⟨true, false, true, false, true, true⟩
        ⟨true, false, true, [⟨"A", "error", 1⟩], [⟨"B", "wait", 2⟩]⟩ =
      Except.ok ⟨true, false, true, [], [⟨"B", "wait", 2⟩]⟩ ∧
    (Host.mk true true true false true true).extensionInstalled = true ∧
    (Host.mk true true true false true true).readFails = true ∧
    reloadEventTableData ⟨true, true, true, false, true, true⟩
        ⟨true, false, true, [⟨"A", "error", 1⟩], [⟨"B", "wait", 2⟩]⟩ =
      Except.error ⟨true, false, true, [], [⟨"B", "wait", 2⟩]⟩ :=
  ⟨rfl,
   (C6_absence_vs_failure ⟨true, false, true, false, true, true⟩
      ⟨true, false, true, [⟨"A", "error", 1⟩], [⟨"B", "wait", 2⟩]⟩).1 rfl,
   rfl, rfl,
   (C6_absence_vs_failure ⟨true, true, true, false, true, true⟩
      ⟨true, false, true, [⟨"A", "error", 1⟩], [⟨"B", "wait", 2⟩]⟩).2 rfl rfl⟩

/-- The validation loop of add_simula_event agrees with the registry
lookup used by dispatch: no match found iff the lookup is empty. -/
theorem lookupAction_none_iff (act : String) :
    lookupAction act = none ↔
      (ActionTable.any fun a => pg_strcasecmp_eq a.1 act) = false := by
  simp [lookupAction, Option.map_eq_none', List.find?_eq_none, List.any_eq_false]

/-- Claim C4 counterexample: add_simula_event called with an unknown
action sets the reentrancy guard and then exits via ereport(ERROR) with
the guard still set — the guard is not clear on return from the call
itself. -/
theorem C4_counterexample :
    add_simula_event ⟨true, true, false, false, false, false⟩
        ⟨false, false, false, [], []⟩ "DROP TABLE" "no-such-action" 0 =
      Except.error ⟨false, true, false, [], []⟩ ∧
    (SimulaState.mk false true false [] []).in_simula_event_progress = true := by
  constructor
  · rfl
  · rfl

/-- Claim C4 (amended): each rule-mutation entry point sets the guard
before its storage request and clears it on the normal exit path; on an
error exit (unknown-action rejection or storage failure) the guard is
still set when the call is left, and is cleared only when the
transaction ends, by the registered transaction callback. -/
theorem C4_guard_discipline (host : Host) (st : SimulaState) (ope act : String)
    (sec : Int) :
    (∀ stR b, add_simula_event host st ope act sec = Except.ok (stR, b) →
      stR.in_simula_event_progress = false) ∧
    (∀ stE, add_simula_event host st ope act sec = Except.error stE →
      stE.in_simula_event_progress = true ∧
      (pg_simula_xact_callback XactEvent.abort stE).in_simula_event_progress = false) ∧
    (∀ stR b, clear_all_events host st = Except.ok (stR, b) →
      stR.in_simula_event_progress = false) ∧
    (∀ stE, clear_all_events host st = Except.error stE →
      stE.in_simula_event_progress = true ∧
      (pg_simula_xact_callback XactEvent.abort stE).in_simula_event_progress = false) := by
  refine ⟨?_, ?_, ?_, ?_⟩
  · intro stR b h
    simp only [add_simula_event] at h
    split at h
    · exact absurd h (by simp)
    · split at h
      · exact absurd h (by simp)
      · simp only [Except.ok.injEq, Prod.mk.injEq] at h
        rw [← h.1]
  · intro stE h
    simp only [add_simula_event] at h
    split at h
    · simp only [Except.error.injEq] at h
      rw [← h]
      exact ⟨rfl, rfl⟩
    · split at h
      · simp only [Except.error.injEq] at h
        rw [← h]
        exact ⟨rfl, rfl⟩
      · exact absurd h (by simp)
  · intro stR b h
    simp only [clear_all_events] at h
    split at h
    · exact absurd h (by simp)
    · simp only [Except.ok.injEq, Prod.mk.injEq] at h
      rw [← h.1]
  · intro stE h
    simp only [clear_all_events] at h
    split at h
    · simp only [Except.error.injEq] at h
      rw [← h]
      exact ⟨rfl, rfl⟩
    · exact absurd h (by simp)

/-- Witness for C4 (amended): a successful upsert returns with the guard
clear. -/
theorem C4_witness :
    add_simula_event ⟨true, true, false, false, true, true⟩
        ⟨true, false, true, [], []⟩ "VACUUM" "panic" 0 =
      Except.ok (⟨true, false, true, [], [⟨"VACUUM", "panic", 0⟩]⟩, true) ∧
    (SimulaState.mk true false true [] [⟨"VACUUM", "panic", 0⟩]).in_simula_event_progress
      = false :=
  ⟨rfl,
   (C4_guard_discipline ⟨true, true, false, false, true, true⟩
      ⟨true, false, true, [], []⟩ "VACUUM" "panic" 0).1
     ⟨true, false, true, [], [⟨"VACUUM", "panic", 0⟩]⟩ true rfl⟩

/-- The upsert is idempotent in its key: a second upsert for the same
operation fully supersedes the first. -/
theorem upsertRow_upsertRow (rows : List EventRow) (ope a1 : String) (s1 : Int)
    (a2 : String) (s2 : Int) :
    upsertRow (upsertRow rows ope a1 s1) ope a2 s2 = upsertRow rows ope a2 s2 := by
  induction rows with
  | nil => simp [upsertRow]
  | cons r rest ih =>
    by_cases hr : r.operation = ope
    · simp [upsertRow, hr]
    · simp [upsertRow, hr, ih]

/-- Under unique keys (guaranteed by the primary key), after an upsert
exactly one row carries the upserted operation, holding the new action
and sec. -/
theorem upsertRow_filter (rows : List EventRow) (ope act : String) (sec : Int)
    (h : (rows.map EventRow.operation).Nodup) :
    (upsertRow rows ope act sec).filter (fun r => r.operation == ope) =
      [⟨ope, act, sec⟩] := by
  induction rows with
  | nil => simp [upsertRow]
  | cons r rest ih =>
    simp only [List.map_cons, List.nodup_cons] at h
    by_cases hr : r.operation = ope
    · have hrest : rest.filter (fun r => r.operation == ope) = [] := by
        rw [List.filter_eq_nil_iff]
        intro x hx
        simp only [beq_iff_eq]
        intro hxo
        exact h.1 (by rw [hr, ← hxo]; exact List.mem_map_of_mem EventRow.operation hx)
      simp [upsertRow, hr, List.filter, hrest]
    · have hrb : (r.operation == ope) = false := by
        simp [hr]
      simp [upsertRow, hr, List.filter, hrb, ih h.2]

/-- Claim C8: with functioning storage, add_simula_event raises an error
having written nothing iff the action matches no registry entry
case-insensitively; otherwise it upserts the row keyed by the operation
and returns true, a repeated upsert for the same operation superseding
the previous action and sec and leaving exactly one row for that key. -/
theorem C8_add_event_validates_and_upserts (host : Host) (st : SimulaState)
    (ope act : String) (sec : Int) (hw : host.writeFails = false) :
    ((∃ stE, add_simula_event host st ope act sec = Except.error stE ∧
        stE.store = st.store) ↔ lookupAction act = none) ∧
    (lookupAction act ≠ none →
      add_simula_event host st ope act sec =
        Except.ok ({ st with store := upsertRow st.store ope act sec,
                             in_simula_event_progress := false }, true)) ∧
    (∀ a1 s1, upsertRow (upsertRow st.store ope a1 s1) ope act sec =
      upsertRow st.store ope act sec) ∧
    ((st.store.map EventRow.operation).Nodup →
      (upsertRow st.store ope act sec).filter (fun r => r.operation == ope) =
        [⟨ope, act, sec⟩]) := by
  refine ⟨⟨?_, ?_⟩, ?_, fun a1 s1 => upsertRow_upsertRow st.store ope a1 s1 act sec,
          fun h => upsertRow_filter st.store ope act sec h⟩
  · rintro ⟨stE, hE, hstore⟩
    simp only [add_simula_event] at hE
    split at hE
    · next hcond =>
      rw [lookupAction_none_iff]
      simpa using hcond
    · split at hE
      · next hwf => simp [hw] at hwf
      · exact absurd hE (by simp)
  · intro hnone
    have hany : (ActionTable.any fun a => pg_strcasecmp_eq a.1 act) = false :=
      (lookupAction_none_iff act).mp hnone
    exact ⟨{ st with in_simula_event_progress := true }, by
      simp [add_simula_event, hany], rfl⟩
  · intro hne
    have hany : (ActionTable.any fun a => pg_strcasecmp_eq a.1 act) = true := by
      cases hb : ActionTable.any fun a => pg_strcasecmp_eq a.1 act with
      | false => exact absurd ((lookupAction_none_iff act).mpr hb) hne
      | true => rfl
    simp [add_simula_event, hany, hw]

/-- Witness for C8: a valid action spelled in a different case replaces
the row already stored for the same operation and returns true. -/
theorem C8_witness :
    (Host.mk true true false false true true).writeFails = false ∧
    lookupAction "FATAL" ≠ none ∧
    add_simula_event ⟨true, true, false, false, true, true⟩
        ⟨true, false, true, [], [⟨"SELECT", "error", 1⟩]⟩ "SELECT" "FATAL" 9 =
      Except.ok (⟨true, false, true, [], [⟨"SELECT", "FATAL", 9⟩]⟩, true) :=
  ⟨rfl, by decide, by
    have h := (C8_add_event_validates_and_upserts
      ⟨true, true, false, false, true, true⟩
      ⟨true, false, true, [], [⟨"SELECT", "error", 1⟩]⟩ "SELECT" "FATAL" 9
      rfl).2.1 (by decide)
    rw [h]
    rfl⟩

/-- The guarded block ends in one of exactly five ways: no abort, an
abort from the failed storage read with no action invoked, or an abort
from an invoked error, panic, or fatal action. -/
theorem interceptStep_shape (host : Host) (st : SimulaState) (tag : String) :
    (interceptStep host st tag).abort = none ∨
    ((interceptStep host st tag).abort = some AbortReason.storageError ∧
     (interceptStep host st tag).fired = none) ∨
    (∃ p, (interceptStep host st tag).abort = some AbortReason.simError ∧
      (interceptStep host st tag).fired = some (ActKind.error, p)) ∨
    (∃ p, (interceptStep host st tag).abort = some AbortReason.simPanic ∧
      (interceptStep host st tag).fired = some (ActKind.panic, p)) ∨
    (∃ p, (interceptStep host st tag).abort = some AbortReason.simFatal ∧
      (interceptStep host st tag).fired = some (ActKind.fatal, p)) := by
  simp only [interceptStep]
  split
  · split
    · right; left; exact ⟨rfl, rfl⟩
    · split
      · right; right; left; exact ⟨_, rfl, rfl⟩
      · right; right; right; left; exact ⟨_, rfl, rfl⟩
      · right; right; right; right; exact ⟨_, rfl, rfl⟩
      · left; rfl
      · left; rfl
  · left; rfl

/-- Forwarding discipline of the shared hook tail, given the shape of the
guarded block's outcome. -/
theorem mkHookRun_forwarding (r : InterceptResult) (prevInstalled : Bool)
    (hshape : r.abort = none ∨
      (r.abort = some AbortReason.storageError ∧ r.fired = none) ∨
      (∃ p, r.abort = some AbortReason.simError ∧
        r.fired = some (ActKind.error, p)) ∨
      (∃ p, r.abort = some AbortReason.simPanic ∧
        r.fired = some (ActKind.panic, p)) ∨
      (∃ p, r.abort = some AbortReason.simFatal ∧
        r.fired = some (ActKind.fatal, p))) :
    ((mkHookRun r prevInstalled).abort = none →
      (mkHookRun r prevInstalled).forwardedTo =
        some (if prevInstalled then ForwardTarget.prevHook
              else ForwardTarget.standardHandler)) ∧
    ((mkHookRun r prevInstalled).forwardedTo = none →
      (mkHookRun r prevInstalled).abort = some AbortReason.storageError ∨
      ∃ p, (mkHookRun r prevInstalled).fired = some (ActKind.error, p) ∨
           (mkHookRun r prevInstalled).fired = some (ActKind.panic, p) ∨
           (mkHookRun r prevInstalled).fired = some (ActKind.fatal, p)) := by
  constructor
  · intro h
    have h' : r.abort = none := h
    simp [mkHookRun, h']
  · intro h
    rcases hab : r.abort with _ | a
    · exfalso
      have : (mkHookRun r prevInstalled).forwardedTo =
          some (if prevInstalled then ForwardTarget.prevHook
                else ForwardTarget.standardHandler) := by
        simp [mkHookRun, hab]
      rw [this] at h
      exact Option.noConfusion h
    · rcases hshape with h0 | ⟨h1, h2⟩ | ⟨p, h1, h2⟩ | ⟨p, h1, h2⟩ | ⟨p, h1, h2⟩
      · rw [hab] at h0; exact Option.noConfusion h0
      · left; exact h1
      · right; exact ⟨p, Or.inl h2⟩
      · right; exact ⟨p, Or.inr (Or.inl h2)⟩
      · right; exact ⟨p, Or.inr (Or.inr h2)⟩

/-- Claim C7 counterexample: with fault injection live and the storage
read failing, the planner hook aborts with a storage error — no action
was invoked, and yet control is not forwarded to any next handler, so
forwarding is not guaranteed in every non-action case. -/
theorem C7_counterexample :
    pg_simula_planner ⟨true, true, true, false, false, false⟩
        ⟨true, false, false, [], []⟩ "SELECT" =
      ⟨some AbortReason.storageError, none, true, false, none,
       ⟨true, true, true, [], []⟩⟩ ∧
    (pg_simula_planner ⟨true, true, true, false, false, false⟩
        ⟨true, false, false, [], []⟩ "SELECT").fired = none ∧
    (pg_simula_planner ⟨true, true, true, false, false, false⟩
        ⟨true, false, false, [], []⟩ "SELECT").forwardedTo = none := by
  refine ⟨by decide, by decide, by decide⟩

/-- Claim C7 (amended): at either interception point, whenever the
guarded block does not abort, control is forwarded to the previously
installed hook when one exists and otherwise to the host's standard
handler; forwarding is withheld only when the intercepted operation is
aborted — by the storage failure raised during refresh or by an invoked
aborting action. -/
theorem C7_always_forwards (host : Host) (st : SimulaState) (tag : String) :
    ((pg_simula_planner host st tag).abort = none →
      (pg_simula_planner host st tag).forwardedTo =
        some (if host.prev_planner then ForwardTarget.prevHook
              else ForwardTarget.standardHandler)) ∧
    ((pg_simula_planner host st tag).forwardedTo = none →
      (pg_simula_planner host st tag).abort = some AbortReason.storageError ∨
      ∃ p, (pg_simula_planner host st tag).fired = some (ActKind.error, p) ∨
           (pg_simula_planner host st tag).fired = some (ActKind.panic, p) ∨
           (pg_simula_planner host st tag).fired = some (ActKind.fatal, p)) ∧
    ((pg_simula_ProcessUtility host st tag).abort = none →
      (pg_simula_ProcessUtility host st tag).forwardedTo =
        some (if host.prev_ProcessUtility then ForwardTarget.prevHook
              else ForwardTarget.standardHandler)) ∧
    ((pg_simula_ProcessUtility host st tag).forwardedTo = none →
      (pg_simula_ProcessUtility host st tag).abort = some AbortReason.storageError ∨
      ∃ p, (pg_simula_ProcessUtility host st tag).fired = some (ActKind.error, p) ∨
           (pg_simula_ProcessUtility host st tag).fired = some (ActKind.panic, p) ∨
           (pg_simula_ProcessUtility host st tag).fired = some (ActKind.fatal, p)) := by
  have hp := mkHookRun_forwarding (interceptStep host st tag) host.prev_planner
    (interceptStep_shape host st tag)
  have hu := mkHookRun_forwarding (interceptStep host st tag) host.prev_ProcessUtility
    (interceptStep_shape host st tag)
  exact ⟨hp.1, hp.2, hu.1, hu.2⟩

/-- Witness for C7 (amended): in the storage-failure scenario the planner
hook does not forward, and the theorem pins the abort to the storage
error or an invoked aborting action. -/
theorem C7_witness :
    (pg_simula_planner ⟨true, true, true, false, true, false⟩
        ⟨true, false, false, [], [⟨"X", "error", 0⟩]⟩ "UPDATE").forwardedTo = none ∧
    ((pg_simula_planner ⟨true, true, true, false, true, false⟩
        ⟨true, false, false, [], [⟨"X", "error", 0⟩]⟩ "UPDATE").abort =
        some AbortReason.storageError ∨
     ∃ p, (pg_simula_planner ⟨true, true, true, false, true, false⟩
        ⟨true, false, false, [], [⟨"X", "error", 0⟩]⟩ "UPDATE").fired =
          some (ActKind.error, p) ∨
          (pg_simula_planner ⟨true, true, true, false, true, false⟩
        ⟨true, false, false, [], [⟨"X", "error", 0⟩]⟩ "UPDATE").fired =
          some (ActKind.panic, p) ∨
          (pg_simula_planner ⟨true, true, true, false, true, false⟩
        ⟨true, false, false, [], [⟨"X", "error", 0⟩]⟩ "UPDATE").fired =
          some (ActKind.fatal, p)) :=
  ⟨by decide,
   (C7_always_forwards ⟨true, true, true, false, true, false⟩
      ⟨true, false, false, [], [⟨"X", "error", 0⟩]⟩ "UPDATE").2.1 (by decide)⟩

/-- Claim C9 counterexample: wait with sec = 4295 overflows the 32-bit
product sec * 1000 * 1000 and requests a 32704-microsecond sleep — about
0.03 seconds — instead of 4295 seconds. -/
theorem C9_counterexample :
    wait_func 4295 = 32704 ∧ (4295 : Int) * 1000000 = 4295000000 ∧
    (32704 : Int) ≠ 4295000000 := by
  refine ⟨by decide, by decide, by decide⟩

/-- Claim C9 (amended): for every sec with 0 ≤ sec ≤ 2147 the product
sec * 1000 * 1000 does not overflow the 32-bit int, and wait suspends the
session for exactly sec seconds (sec * 10^6 microseconds) before
returning normally; in particular sec = 0 sleeps 0 microseconds.  Beyond
that bound the product wraps and the requested delay no longer equals
sec seconds. -/
theorem C9_wait_duration (sec : Int) (h0 : 0 ≤ sec) (h1 : sec ≤ 2147) :
    wait_func sec = sec * 1000000 := by
  have hprod : sec * 1000 * 1000 = sec * 1000000 := by ring
  have hid : toInt32 (sec * 1000000) = sec * 1000000 := by
    unfold toInt32
    have h2 : ((2 : Int) ^ 31) = 2147483648 := by norm_num
    have h3 : ((2 : Int) ^ 32) = 4294967296 := by norm_num
    rw [h2, h3]
    omega
  unfold wait_func pg_usleep
  rw [hprod, hid]
  split
  · rfl
  · omega

/-- Witness for C9 (amended): sec = 0 returns immediately with a zero
delay. -/
theorem C9_witness :
    (0 : Int) ≤ 0 ∧ (0 : Int) ≤ 2147 ∧ wait_func 0 = 0 * 1000000 :=
  ⟨by decide, by decide, C9_wait_duration 0 (by decide) (by decide)⟩

end PgSimula
